import Mathlib

/-!
Verification development for the MediChat RAG application.

The Python sources are shallowly embedded as executable Lean definitions:

* string primitives (`pyLower`, `pyStrip`, `pySplit`, `pyContains`, …) model
  the Python `str` operations used by the code (`lower`, `strip`, `split()`,
  the `in` substring test, slicing) on ASCII text;
* the query classifier of `src/rag_chain.py` (`is_greeting`, `is_farewell`,
  `is_unclear_query`, `is_document_question`) is translated clause by clause;
* `answer_question` is embedded as a pure function parameterised over the
  external collaborators (the LLM call and the FAISS similarity search are
  oracles passed in as functions, `random.choice` is an index supplied by the
  caller).  Besides its result it returns the list of externally observable
  calls it makes (`Event`), so that frame properties ("no retrieval happens",
  "no LLM call happens") can be stated;
* `ChatManager._trim_history` / message appending from `src/chat_manager.py`
  are embedded over lists, with Python's negative-index slice `xs[-n:]`
  modelled by `pyTailSlice` (including the `n = 0` case, where `xs[-0:]` is
  the whole list);
* `VectorStore.create_vector_store` / `VectorStore.query` from
  `src/vector_store.py` and the cumulative-chunk ingestion of `app.py`
  (`process_documents`) are embedded as state-passing functions.
-/

/-! ## Python string primitives -/

/-- Whitespace test used by the Python `strip`/`split` models. -/
def isWs (c : Char) : Bool := c.isWhitespace

/-- Python `s.lower()` for ASCII text. -/
def pyLower (s : String) : String := ⟨s.data.map Char.toLower⟩

/-- Python `s.strip()`: remove leading and trailing whitespace. -/
def pyStrip (s : String) : String :=
  ⟨((s.data.dropWhile isWs).reverse.dropWhile isWs).reverse⟩

/-- Python `s.startswith(pre)`. -/
def pyStartsWith (s pre : String) : Bool := pre.data.isPrefixOf s.data

/-- Python slice `s[n:]` (by character count). -/
def pyDrop (s : String) (n : Nat) : String := ⟨s.data.drop n⟩

/-- Python `len(s)` (character count). -/
def pyLen (s : String) : Nat := s.data.length

/-- Helper for `pySplit`: split a character list on whitespace runs,
discarding empty fragments; `acc` holds the current word reversed. -/
def splitWsAux : List Char → List Char → List (List Char)
  | [], acc => if acc.isEmpty then [] else [acc.reverse]
  | c :: cs, acc =>
    if isWs c then
      if acc.isEmpty then splitWsAux cs [] else acc.reverse :: splitWsAux cs []
    else splitWsAux cs (c :: acc)

/-- Python `s.split()` with no argument: split on whitespace runs,
no empty fragments. -/
def pySplit (s : String) : List String := (splitWsAux s.data []).map fun l => ⟨l⟩

/-- Is `pat` an infix of the list? -/
def listInfix [BEq α] : List α → List α → Bool
  | pat, [] => pat.isEmpty
  | pat, a :: as => pat.isPrefixOf (a :: as) || listInfix pat as

/-- Python `pat in s` substring test. -/
def pyContains (s pat : String) : Bool := listInfix pat.data s.data

/-! ## Query classifier (`src/rag_chain.py`, `RAGChain._is_*`) -/

/-- The fixed greeting-phrase set of `RAGChain._is_greeting`. -/
def greetings : List String :=
  ["hi", "hello", "hey", "greetings", "good morning", "good afternoon",
   "good evening", "howdy", "sup", "what\x27s up", "how are you",
   "how\x27s it going"]

/-- Model of `RAGChain._is_greeting`: exact match against the greeting set, or the
trimmed lowercase query starts with a greeting phrase and the stripped
remainder is empty or at most two words. -/
def is_greeting (query : String) : Bool :=
  let query_lower := pyStrip (pyLower query)
  greetings.contains query_lower ||
    greetings.any fun greeting =>
      pyStartsWith query_lower greeting &&
        (let remaining := pyStrip (pyDrop query_lower (pyLen greeting))
         remaining == "" || decide ((pySplit remaining).length ≤ 2))

/-- The fixed farewell-phrase set of `RAGChain._is_farewell`. -/
def farewells : List String :=
  ["bye", "goodbye", "see you", "take care", "farewell", "adios", "cya",
   "see ya", "cheerio", "gotta go", "have to go", "talk later", "ttyl"]

/-- Model of `RAGChain._is_farewell`: substring containment of any farewell phrase in
the trimmed lowercase query. -/
def is_farewell (query : String) : Bool :=
  let query_lower := pyStrip (pyLower query)
  farewells.any fun farewell => pyContains query_lower farewell

/-- The fixed vague-response set of `RAGChain._is_unclear_query`. -/
def unclear_keywords : List String :=
  ["nothing", "nope", "nah", "whatever", "dunno", "idk"]

/-- Model of `RAGChain._is_unclear_query`: exactly one word and that word is in the
vague-response set. -/
def is_unclear_query (query : String) : Bool :=
  let query_lower := pyStrip (pyLower query)
  decide ((pySplit query_lower).length = 1) &&
    unclear_keywords.contains query_lower

/-- The fixed document-keyword set of `RAGChain._is_document_question`. -/
def document_keywords : List String :=
  ["document", "documents", "file", "pdf", "mention", "mentioned",
   "in the document", "from the document", "uploaded", "your document",
   "my document", "about the file", "does the document"]

/-- Model of `RAGChain._is_document_question`: substring containment of any document
keyword in the lowercase query (the source does not strip here). -/
def is_document_question (query : String) : Bool :=
  let query_lower := pyLower query
  document_keywords.any fun keyword => pyContains query_lower keyword

/-- Intent categories of the specification's query classifier. -/
inductive Intent where
  | greeting
  | farewell
  | unclear
  | document_targeted
  | general
deriving DecidableEq, Repr

/-- The classifier with the precedence order used by
`RAGChain.answer_question`: greeting, then farewell, then unclear, then
document-targeted, else general. -/
def classify (query : String) : Intent :=
  if is_greeting query then .greeting
  else if is_farewell query then .farewell
  else if is_unclear_query query then .unclear
  else if is_document_question query then .document_targeted
  else .general

/-! ## Data model -/

/-- A document chunk produced by ingestion: text content plus string-keyed
metadata (modelled as an association list). -/
structure Chunk where
  content : String
  metadata : List (String × String)
deriving DecidableEq, Repr

/-- A LangChain `Document` as built by `create_vector_store`
(`page_content` plus metadata). -/
structure LCDocument where
  page_content : String
  metadata : List (String × String)
deriving DecidableEq, Repr

/-- Model of `Document(page_content=doc["content"], metadata=doc.get("metadata", {}))`. -/
def toLangchainDoc (c : Chunk) : LCDocument :=
  { page_content := c.content, metadata := c.metadata }

/-- A retrieval result as returned by `RAGChain.retrieve_context`: content,
metadata and a score — which is always `None` in the source ("FAISS does not
return scores directly"). -/
structure RetrievalResult where
  content : String
  metadata : List (String × String)
  score : Option Int
deriving DecidableEq, Repr

/-- The FAISS index is modelled by the LangChain documents it was built
from; similarity search over it is an external oracle. -/
abbrev Index := List LCDocument

/-- Externally observable calls made by the orchestrator: an LLM invocation
with a given prompt, or a retriever similarity search with a given query
and `k`. -/
inductive Event where
  | llmCall : String → Event
  | searchCall : String → Nat → Event
deriving DecidableEq, Repr

/-! ## Prompts and canned messages (`src/rag_chain.py`) -/

/-- The prompt of `RAGChain.generate_response_without_context`. -/
def ungrounded_prompt (query : String) : String :=
  "You are a helpful medical knowledge assistant. Answer the user\x27s question based on your general knowledge.\n\nUSER QUESTION:\n"
    ++ query ++
    "\n\nINSTRUCTIONS:\n- Answer naturally and conversationally\n- Be accurate and helpful\n- If it\x27s a greeting, respond warmly\n- For medical questions, provide general information responsibly\n- Include disclaimers where appropriate\n\nANSWER:"

/-- Model of `RAGChain._format_context`: number the retrieved documents from 1, label
each with its `source` metadata (default \"Unknown\"), join with separators. -/
def format_context (context : List RetrievalResult) : String :=
  String.intercalate "\n---\n"
    (context.enum.map fun p =>
      let source := (p.2.metadata.lookup "source").getD "Unknown"
      "[Document " ++ toString (p.1 + 1) ++ " - " ++ source ++ "]\n"
        ++ p.2.content ++ "\n")

/-- Model of `RAGChain._build_prompt`: the grounded-generation prompt. -/
def build_prompt (query : String) (context : String) : String :=
  "You are a helpful medical knowledge assistant. Use the provided context to answer the user\x27s question accurately and concisely.\n\nCONTEXT:\n"
    ++ context ++
    "\n\nUSER QUESTION:\n"
    ++ query ++
    "\n\nINSTRUCTIONS:\n- Answer based only on the provided context\n- If the context doesn\x27t contain relevant information, say \"I don\x27t have enough information to answer that\"\n- Be concise and clear\n- Provide medical information responsibly\n- Include relevant citations from source documents\n\nANSWER:"

/-- The fixed message pool of `RAGChain._generate_farewell_message`. -/
def farewell_messages : List String :=
  ["Goodbye! Feel free to come back anytime you have questions.",
   "See you later! Take care!",
   "Bye! I\x27m here whenever you need help.",
   "Have a great day! Come back if you need more information.",
   "Take care! See you soon!"]

/-- The fixed message pool of `RAGChain._generate_clarification_message`. -/
def clarification_messages : List String :=
  ["I\x27m not sure what you mean. Could you ask me a question about medical topics or your uploaded documents?",
   "Please provide more details. What would you like to know about?",
   "I\x27d be happy to help! Could you please rephrase your question?",
   "Can you ask me a specific question about medical topics or your documents?"]

/-- Model of `RAGChain._generate_farewell_message`: `random.choice(messages)`, with
the random draw modelled by a caller-supplied index reduced mod the pool
size. -/
def generate_farewell_message (pick : Nat) : String :=
  farewell_messages.getD (pick % farewell_messages.length) ""

/-- Model of `RAGChain._generate_clarification_message`: `random.choice(messages)`
with a caller-supplied index. -/
def generate_clarification_message (pick : Nat) : String :=
  clarification_messages.getD (pick % clarification_messages.length) ""

/-- The literal refusal string of the document-targeted no-hits branch of
`RAGChain.answer_question`. -/
def no_information_answer : String :=
  "I don\x27t have enough information in the documents to answer that question."

/-- The `ValueError` message of `RAGChain.retrieve_context` when the vector
store is not built. -/
def not_initialized_msg : String :=
  "Vector store not initialized. Process documents first."

/-! ## Orchestrator (`src/rag_chain.py`, `RAGChain`) -/

/-- Model of `RAGChain.retrieve_context`: raises `ValueError` when no vector store is
present; otherwise runs the retriever (the FAISS similarity `search` oracle,
applied to the current index, the query and `top_k`) and wraps each hit with
`score := none`.  The vector store is returned unchanged alongside the
outcome, and the emitted `Event`s record the retriever invocation. -/
def retrieve_context (search : Index → String → Nat → List LCDocument)
    (vector_store : Option Index) (query : String) (top_k : Nat) :
    (Option Index × Except String (List RetrievalResult)) × List Event :=
  match vector_store with
  | none => ((none, .error not_initialized_msg), [])
  | some idx =>
    ((some idx,
      .ok ((search idx query top_k).map fun d =>
        { content := d.page_content, metadata := d.metadata, score := none })),
     [.searchCall query top_k])

/-- Model of `RAGChain.generate_response_without_context`: one LLM call on the
general-knowledge prompt. -/
def generate_response_without_context (llm : String → String)
    (query : String) : String × List Event :=
  let prompt := ungrounded_prompt query
  (llm prompt, [.llmCall prompt])

/-- Model of `RAGChain.generate_response`: one LLM call on the grounded prompt built
from the formatted retrieved context. -/
def generate_response (llm : String → String) (query : String)
    (context : List RetrievalResult) : String × List Event :=
  let prompt := build_prompt query (format_context context)
  (llm prompt, [.llmCall prompt])

/-- Model of `RAGChain.answer_question`: the full decision pipeline.  Branches in
source order: greeting, farewell, unclear, then the vector-store presence
check, then retrieval, then the document-targeted/general split.  Errors
raised by `retrieve_context` propagate (`Except.error`); the `Event` list
records every LLM and retriever call in order. -/
def answer_question (llm : String → String)
    (search : Index → String → Nat → List LCDocument)
    (vector_store : Option Index) (pickF pickC : Nat)
    (query : String) (top_k : Nat) :
    Except String (String × List RetrievalResult) × List Event :=
  if is_greeting query then
    let r := generate_response_without_context llm query
    (.ok (r.1, []), r.2)
  else if is_farewell query then
    (.ok (generate_farewell_message pickF, []), [])
  else if is_unclear_query query then
    (.ok (generate_clarification_message pickC, []), [])
  else
    let is_document_q := is_document_question query
    if vector_store.isNone then
      let r := generate_response_without_context llm query
      (.ok (r.1, []), r.2)
    else
      match retrieve_context search vector_store query top_k with
      | ((_, .error e), evs) => (.error e, evs)
      | ((_, .ok context), evs) =>
        if is_document_q && !context.isEmpty then
          let r := generate_response llm query context
          (.ok (r.1, context), evs ++ r.2)
        else if is_document_q then
          (.ok (no_information_answer, []), evs)
        else
          let r := generate_response_without_context llm query
          (.ok (r.1, []), evs ++ r.2)

/-! ## Vector store wrapper (`src/vector_store.py`, `VectorStore`) -/

/-- The `ValueError` message of `VectorStore.create_vector_store` on an
empty documents list. -/
def empty_corpus_msg : String := "Documents list cannot be empty"

/-- The `ValueError` message of `VectorStore.query` before a build. -/
def vs_not_initialized_msg : String := "Vector store is not initialized."

/-- Model of `VectorStore.create_vector_store`: raises `ValueError` on an empty
documents list, leaving `self.vector_store` unchanged; otherwise converts to
LangChain documents and installs the FAISS index built from them, replacing
any prior index.  Returns the new store state together with the raised
error, if any. -/
def VectorStore.create_vector_store (vector_store : Option Index)
    (documents : List Chunk) : Option Index × Option String :=
  if documents.isEmpty then (vector_store, some empty_corpus_msg)
  else (some (documents.map toLangchainDoc), none)

/-- Model of `VectorStore.query`: raises `ValueError` when no build has happened;
otherwise returns the contents of the top-`k` similarity hits (the
similarity search itself is an external oracle over the built index). -/
def VectorStore.query (sim_search : Index → String → Nat → List LCDocument)
    (vector_store : Option Index) (query_text : String) (top_k : Nat) :
    Except String (List String) :=
  match vector_store with
  | none => .error vs_not_initialized_msg
  | some idx => .ok ((sim_search idx query_text top_k).map (·.page_content))

/-! ## Conversation store (`src/chat_manager.py`, `ChatMessage`/`ChatManager`) -/

/-- Message roles; the `ChatMessage` constructor admits exactly these two. -/
inductive Role where
  | user
  | assistant
deriving DecidableEq, Repr

/-- A chat message (timestamp and metadata are irrelevant to the retention
claims and omitted from the embedding). -/
structure ChatMessage where
  role : Role
  content : String
deriving DecidableEq, Repr

/-- Python slice `xs[-n:]` for `n ≥ 0`. Note `xs[-0:]` is `xs[0:]`, the
whole list, while for `n ≥ 1` it is the last `min n (length xs)` elements. -/
def pyTailSlice (n : Nat) (xs : List α) : List α :=
  if n = 0 then xs else xs.drop (xs.length - n)

/-- Model of `ChatManager._trim_history`: when the message count exceeds
`max_history`, keep `self.messages[-self.max_history:]`. -/
def trim_history (max_history : Nat) (messages : List ChatMessage) :
    List ChatMessage :=
  if messages.length > max_history then pyTailSlice max_history messages
  else messages

/-- The append-then-trim step shared by `ChatManager.add_user_message` and
`ChatManager.add_assistant_message`. -/
def add_message (max_history : Nat) (messages : List ChatMessage)
    (m : ChatMessage) : List ChatMessage :=
  trim_history max_history (messages ++ [m])

/-- Model of `ChatManager.add_user_message`. -/
def add_user_message (max_history : Nat) (messages : List ChatMessage)
    (content : String) : List ChatMessage :=
  add_message max_history messages ⟨Role.user, content⟩

/-- Model of `ChatManager.add_assistant_message` (metadata omitted). -/
def add_assistant_message (max_history : Nat) (messages : List ChatMessage)
    (content : String) : List ChatMessage :=
  add_message max_history messages ⟨Role.assistant, content⟩

/-! ## Ingestion (`app.py`, `process_documents`) -/

/-- The session state relevant to ingestion: the cumulative chunk list
`st.session_state.all_chunks` and the `RAGChain` vector store. -/
structure SessionState where
  all_chunks : List Chunk
  vector_store : Option Index
deriving DecidableEq, Repr

/-- Model of `RAGChain.create_vector_store`: replaces the current vector store with a
FAISS index built from the LangChain conversions of all given chunks (the
old store does not contribute). -/
def RAGChain.create_vector_store (documents : List Chunk) : Option Index :=
  some (documents.map toLangchainDoc)

/-- Model of `app.process_documents`: each uploaded file's chunks are appended to
`all_chunks` (`st.session_state.all_chunks.extend(chunks)`), then — if the
accumulated list is non-empty — `rag_chain.create_vector_store` is called on
the whole accumulated list, replacing the previous index.  A file is
modelled by the chunk list its (external) PDF processing yields. -/
def process_documents (st : SessionState) (files : List (List Chunk)) :
    SessionState :=
  let all := st.all_chunks ++ files.flatten
  if all.isEmpty then { st with all_chunks := all }
  else { all_chunks := all, vector_store := RAGChain.create_vector_store all }

/-- A concrete five-message conversation used to evaluate the retention
policy at `max_history = 0`. -/
def fiveMessages : List ChatMessage :=
  [⟨Role.user, "m1"⟩, ⟨Role.assistant, "m2"⟩, ⟨Role.user, "m3"⟩,
   ⟨Role.assistant, "m4"⟩, ⟨Role.user, "m5"⟩]

/-- A concrete six-message conversation used to evaluate the retention
policy at `max_history = 1`. -/
def sixMessages : List ChatMessage :=
  ⟨Role.user, "m0"⟩ :: fiveMessages

/-! ## Helper lemmas -/

/-- Unfolding the classifier: the greeting intent. -/
theorem classify_eq_greeting_iff {q : String} :
    classify q = Intent.greeting ↔ is_greeting q = true := by
  unfold classify
  cases hg : is_greeting q <;> cases hf : is_farewell q <;>
    cases hu : is_unclear_query q <;> cases hd : is_document_question q <;>
      simp

/-- Unfolding the classifier: the farewell intent. -/
theorem classify_eq_farewell_iff {q : String} :
    classify q = Intent.farewell ↔
      is_greeting q = false ∧ is_farewell q = true := by
  unfold classify
  cases hg : is_greeting q <;> cases hf : is_farewell q <;>
    cases hu : is_unclear_query q <;> cases hd : is_document_question q <;>
      simp

/-- Unfolding the classifier: the unclear intent. -/
theorem classify_eq_unclear_iff {q : String} :
    classify q = Intent.unclear ↔
      is_greeting q = false ∧ is_farewell q = false ∧
        is_unclear_query q = true := by
  unfold classify
  cases hg : is_greeting q <;> cases hf : is_farewell q <;>
    cases hu : is_unclear_query q <;> cases hd : is_document_question q <;>
      simp

/-- Unfolding the classifier: the document-targeted intent. -/
theorem classify_eq_document_iff {q : String} :
    classify q = Intent.document_targeted ↔
      is_greeting q = false ∧ is_farewell q = false ∧
        is_unclear_query q = false ∧ is_document_question q = true := by
  unfold classify
  cases hg : is_greeting q <;> cases hf : is_farewell q <;>
    cases hu : is_unclear_query q <;> cases hd : is_document_question q <;>
      simp

/-- Unfolding the classifier: the general intent. -/
theorem classify_eq_general_iff {q : String} :
    classify q = Intent.general ↔
      is_greeting q = false ∧ is_farewell q = false ∧
        is_unclear_query q = false ∧ is_document_question q = false := by
  unfold classify
  cases hg : is_greeting q <;> cases hf : is_farewell q <;>
    cases hu : is_unclear_query q <;> cases hd : is_document_question q <;>
      simp

/-- The value `List.getD` yields at an in-range index is a member of the list. -/
theorem list_getD_mem {α : Type} {l : List α} {n : Nat} {d : α}
    (h : n < l.length) : l.getD n d ∈ l := by
  induction l generalizing n with
  | nil => simp at h
  | cons x xs ih =>
    cases n with
    | zero => simp [List.getD]
    | succ m =>
      have : m < xs.length := by simpa using h
      simpa [List.getD] using Or.inr (by simpa [List.getD] using ih this)

/-- One append-then-trim step, applied to the last `maxH` elements of `ys`,
yields the last `maxH` elements of `ys ++ [m]` — provided `maxH ≥ 1`. -/
theorem add_message_lastN {maxH : Nat} (h : 1 ≤ maxH)
    (ys : List ChatMessage) (m : ChatMessage) :
    add_message maxH (ys.drop (ys.length - maxH)) m =
      (ys ++ [m]).drop ((ys ++ [m]).length - maxH) := by
  unfold add_message trim_history pyTailSlice
  by_cases hlt : ys.length < maxH
  · have h0 : ys.length - maxH = 0 := by omega
    rw [h0, List.drop_zero]
    have hle : ¬ (ys ++ [m]).length > maxH := by
      simp only [List.length_append, List.length_cons, List.length_nil]
      omega
    rw [if_neg hle]
    have h1 : (ys ++ [m]).length - maxH = 0 := by
      simp only [List.length_append, List.length_cons, List.length_nil]
      omega
    rw [h1, List.drop_zero]
  · push_neg at hlt
    have hacc : (ys.drop (ys.length - maxH)).length = maxH := by
      rw [List.length_drop]
      omega
    have hcond : (ys.drop (ys.length - maxH) ++ [m]).length > maxH := by
      simp only [List.length_append, hacc, List.length_cons, List.length_nil]
      omega
    rw [if_pos hcond]
    have hmaxne : ¬ maxH = 0 := by omega
    rw [if_neg hmaxne]
    have hlen2 : (ys.drop (ys.length - maxH) ++ [m]).length - maxH = 1 := by
      simp only [List.length_append, hacc, List.length_cons, List.length_nil]
      omega
    rw [hlen2]
    rw [List.drop_append_of_le_length (by rw [hacc]; exact h)]
    rw [List.drop_drop]
    rw [List.drop_append_of_le_length
      (by simp only [List.length_append, List.length_cons, List.length_nil]
          omega)]
    congr 2
    simp only [List.length_append, List.length_cons, List.length_nil]
    omega

/-- Folding append-then-trim over a message list, starting from the last
`maxH` elements of `ys`, retains exactly the last `maxH` elements of the
full concatenation — provided `maxH ≥ 1`. -/
theorem foldl_add_message_lastN {maxH : Nat} (h : 1 ≤ maxH) :
    ∀ (ms ys : List ChatMessage),
      ms.foldl (add_message maxH) (ys.drop (ys.length - maxH)) =
        (ys ++ ms).drop ((ys ++ ms).length - maxH) := by
  intro ms
  induction ms with
  | nil =>
    intro ys
    simp
  | cons m ms ih =>
    intro ys
    rw [List.foldl_cons, add_message_lastN h ys m, ih (ys ++ [m])]
    simp

/-- The accumulated chunk list after one ingestion call is the old list with
the new files' chunks appended, on both branches of the emptiness check. -/
theorem process_documents_all_chunks (st : SessionState)
    (files : List (List Chunk)) :
    (process_documents st files).all_chunks =
      st.all_chunks ++ files.flatten := by
  simp only [process_documents]
  split <;> rfl

/-- When the accumulated chunk list is non-empty, the ingestion call
installs the index built from all accumulated chunks. -/
theorem process_documents_vector_store (st : SessionState)
    (files : List (List Chunk))
    (hne : st.all_chunks ++ files.flatten ≠ []) :
    (process_documents st files).vector_store =
      some ((st.all_chunks ++ files.flatten).map toLangchainDoc) := by
  have h : (st.all_chunks ++ files.flatten).isEmpty = false := by
    simpa [List.isEmpty_iff] using hne
  simp [process_documents, RAGChain.create_vector_store, h]

/-- Over any sequence of ingestion calls, the accumulated chunk list is the
initial list followed by the concatenation of every submitted batch. -/
theorem foldl_process_documents_all_chunks :
    ∀ (batches : List (List (List Chunk))) (st : SessionState),
      (batches.foldl process_documents st).all_chunks =
        st.all_chunks ++ (batches.map List.flatten).flatten
  | [], st => by simp
  | b :: bs, st => by
    rw [List.foldl_cons, foldl_process_documents_all_chunks bs,
        process_documents_all_chunks]
    simp

/-! ## Claim theorems -/

/-- C1: for every query classified `general` with the index present,
`answer_question` answers with the ungrounded generator's output on the
general-knowledge prompt and empty citations; the event trace shows that the
retrieval search was performed first and its results (whatever the `search`
oracle returns, non-empty included) are discarded. -/
theorem C1_general_intent_discards_hits (llm : String → String)
    (search : Index → String → Nat → List LCDocument) (idx : Index)
    (pickF pickC : Nat) (q : String) (k : Nat)
    (hq : classify q = Intent.general) :
    answer_question llm search (some idx) pickF pickC q k =
      (.ok (llm (ungrounded_prompt q), []),
       [.searchCall q k, .llmCall (ungrounded_prompt q)]) := by
  obtain ⟨hg, hf, hu, hd⟩ := classify_eq_general_iff.mp hq
  simp [answer_question, retrieve_context, generate_response_without_context,
        hg, hf, hu, hd]

/-- C1 witness: a concrete general query against an index whose search
oracle returns a non-empty hit list; the answer is the (constant) ungrounded
LLM output and the citations are empty. -/
theorem C1_witness :
    classify "what is diabetes" = Intent.general ∧
    answer_question (fun _ => "general answer")
        (fun _ _ _ => [⟨"chunk text", [("source", "a.pdf")]⟩])
        (some [⟨"chunk text", [("source", "a.pdf")]⟩]) 0 0
        "what is diabetes" 5 =
      (.ok ("general answer", []),
       [.searchCall "what is diabetes" 5,
        .llmCall (ungrounded_prompt "what is diabetes")]) :=
  ⟨by decide,
   C1_general_intent_discards_hits (fun _ => "general answer")
     (fun _ _ _ => [⟨"chunk text", [("source", "a.pdf")]⟩])
     [⟨"chunk text", [("source", "a.pdf")]⟩] 0 0 "what is diabetes" 5
     (by decide)⟩

/-- C2: for every query classified `document_targeted` with the index
present, when the retrieval search returns no hits, `answer_question`
returns exactly the literal refusal string with empty citations, and the
event trace contains the search call only — no LLM call happens on that
branch. -/
theorem C2_doc_targeted_no_hits_refusal (llm : String → String)
    (search : Index → String → Nat → List LCDocument) (idx : Index)
    (pickF pickC : Nat) (q : String) (k : Nat)
    (hq : classify q = Intent.document_targeted)
    (hs : search idx q k = []) :
    answer_question llm search (some idx) pickF pickC q k =
      (.ok ("I don\x27t have enough information in the documents to answer that question.",
            []),
       [.searchCall q k]) := by
  obtain ⟨hg, hf, hu, hd⟩ := classify_eq_document_iff.mp hq
  simp [answer_question, retrieve_context, no_information_answer,
        hg, hf, hu, hd, hs]

/-- C2 witness: a concrete document-targeted query whose search returns no
hits yields exactly the refusal literal, no citations, no LLM call. -/
theorem C2_witness :
    classify "what does the document say" = Intent.document_targeted ∧
    answer_question (fun p => p) (fun _ _ _ => []) (some []) 0 0
        "what does the document say" 5 =
      (.ok ("I don\x27t have enough information in the documents to answer that question.",
            []),
       [.searchCall "what does the document say" 5]) :=
  ⟨by decide,
   C2_doc_targeted_no_hits_refusal (fun p => p) (fun _ _ _ => []) [] 0 0
     "what does the document say" 5 (by decide) rfl⟩

/-- C3: building the vector store with an empty chunk list fails with the
empty-corpus `ValueError` and leaves the store unchanged; building with any
non-empty list installs the index built from those chunks, and search on the
installed index always succeeds (never the not-built error). -/
theorem C3_build_empty_fails_nonempty_installs (st : Option Index)
    (chunks : List Chunk) :
    (chunks = [] →
      VectorStore.create_vector_store st chunks =
        (st, some "Documents list cannot be empty")) ∧
    (chunks ≠ [] →
      VectorStore.create_vector_store st chunks =
        (some (chunks.map toLangchainDoc), none) ∧
      ∀ (sim_search : Index → String → Nat → List LCDocument) (q : String)
        (k : Nat), ∃ out,
          VectorStore.query sim_search
            (VectorStore.create_vector_store st chunks).1 q k = .ok out) := by
  constructor
  · intro h
    subst h
    simp [VectorStore.create_vector_store, empty_corpus_msg]
  · intro h
    have hne : chunks.isEmpty = false := by
      simpa [List.isEmpty_iff] using h
    refine ⟨by simp [VectorStore.create_vector_store, hne], ?_⟩
    intro sim_search q k
    refine ⟨(sim_search (chunks.map toLangchainDoc) q k).map (·.page_content),
      ?_⟩
    simp [VectorStore.create_vector_store, VectorStore.query, hne]

/-- C3 witness: the empty build fails with the literal message and keeps the
old store; a one-chunk build installs an index on which a concrete search
succeeds. -/
theorem C3_witness :
    (VectorStore.create_vector_store none [] =
      (none, some "Documents list cannot be empty")) ∧
    (VectorStore.create_vector_store none [⟨"text", [("source", "a.pdf")]⟩] =
      (some [⟨"text", [("source", "a.pdf")]⟩], none)) ∧
    ∃ out,
      VectorStore.query (fun idx _ _ => idx)
        (VectorStore.create_vector_store none
          [⟨"text", [("source", "a.pdf")]⟩]).1 "q" 5 = .ok out :=
  ⟨(C3_build_empty_fails_nonempty_installs none []).1 rfl,
   ((C3_build_empty_fails_nonempty_installs none
       [⟨"text", [("source", "a.pdf")]⟩]).2 (by decide)).1,
   ((C3_build_empty_fails_nonempty_installs none
       [⟨"text", [("source", "a.pdf")]⟩]).2 (by decide)).2
     (fun idx _ _ => idx) "q" 5⟩

/-- C6: retrieval with the index state absent fails with the exact
`ValueError` message, performs no search call, and leaves the store state
unchanged (`none`); moreover the orchestrator's own state check keeps this
error out of the normal query path — `answer_question` with an absent store
always returns an `ok` outcome. -/
theorem C6_retrieve_before_build_fails
    (search : Index → String → Nat → List LCDocument) (q : String) (k : Nat) :
    retrieve_context search none q k =
      ((none, .error "Vector store not initialized. Process documents first."),
       []) ∧
    ∀ (llm : String → String) (pickF pickC : Nat), ∃ ans cits,
      (answer_question llm search none pickF pickC q k).1 = .ok (ans, cits) := by
  refine ⟨rfl, ?_⟩
  intro llm pickF pickC
  unfold answer_question
  by_cases hg : is_greeting q <;> by_cases hf : is_farewell q <;>
    by_cases hu : is_unclear_query q <;>
      simp [hg, hf, hu, generate_response_without_context]

/-- C4 counterexample: the query "hi cya" contains the farewell phrase
"cya", yet the greeting check fires first, the classifier returns
`greeting`, and `answer_question` returns the ungrounded LLM output — not a
member of the farewell pool — refuting the claim that every
farewell-substring query is classified `farewell` and answered with a
canned farewell. -/
theorem C4_counterexample :
    is_farewell "hi cya" = true ∧
    classify "hi cya" = Intent.greeting ∧
    (answer_question (fun _ => "warm greeting reply") (fun _ _ _ => [])
        none 0 0 "hi cya" 5).1 = .ok ("warm greeting reply", []) ∧
    "warm greeting reply" ∉ farewell_messages := by
  refine ⟨by decide, by decide, ?_, by decide⟩
  simp [answer_question, generate_response_without_context,
        show is_greeting "hi cya" = true from by decide]

/-- C4 amended: for every query that contains a farewell phrase in its
trimmed lowercase form and does not pass the greeting check (which takes
precedence), the classifier returns `farewell` and `answer_question`
returns a member of the fixed farewell pool with empty citations,
regardless of the surrounding text and of the index state, making no
external call. -/
theorem C4_farewell_canned_answer (llm : String → String)
    (search : Index → String → Nat → List LCDocument)
    (vector_store : Option Index) (pickF pickC : Nat) (q : String) (k : Nat)
    (hg : is_greeting q = false) (hf : is_farewell q = true) :
    classify q = Intent.farewell ∧
    answer_question llm search vector_store pickF pickC q k =
      (.ok (generate_farewell_message pickF, []), []) ∧
    generate_farewell_message pickF ∈ farewell_messages := by
  refine ⟨classify_eq_farewell_iff.mpr ⟨hg, hf⟩, ?_, ?_⟩
  · simp [answer_question, hg, hf]
  · have h5 : pickF % farewell_messages.length < farewell_messages.length :=
      Nat.mod_lt _ (by decide)
    exact list_getD_mem h5

/-- C4 witness: "see ya later" contains the farewell phrase "see ya", is not
a greeting, and gets a canned farewell from the pool with empty citations. -/
theorem C4_witness :
    classify "see ya later" = Intent.farewell ∧
    answer_question (fun _ => "x") (fun _ _ _ => []) none 3 0
        "see ya later" 5 =
      (.ok (generate_farewell_message 3, []), []) ∧
    generate_farewell_message 3 ∈ farewell_messages :=
  C4_farewell_canned_answer (fun _ => "x") (fun _ _ _ => []) none 3 0
    "see ya later" 5 (by decide) (by decide)

/-- C7: queries classified `greeting`, `farewell` or `unclear` short-circuit:
citations are empty and the event trace shows no retrieval-search call; for
`farewell` and `unclear` the trace is empty (no LLM call either) and the
answer is a member of the corresponding fixed message pool. -/
theorem C7_social_intents_short_circuit (llm : String → String)
    (search : Index → String → Nat → List LCDocument)
    (vector_store : Option Index) (pickF pickC : Nat) (q : String) (k : Nat) :
    (classify q = Intent.greeting →
      answer_question llm search vector_store pickF pickC q k =
        (.ok (llm (ungrounded_prompt q), []),
         [.llmCall (ungrounded_prompt q)])) ∧
    (classify q = Intent.farewell →
      answer_question llm search vector_store pickF pickC q k =
        (.ok (generate_farewell_message pickF, []), []) ∧
      generate_farewell_message pickF ∈ farewell_messages) ∧
    (classify q = Intent.unclear →
      answer_question llm search vector_store pickF pickC q k =
        (.ok (generate_clarification_message pickC, []), []) ∧
      generate_clarification_message pickC ∈ clarification_messages) := by
  refine ⟨?_, ?_, ?_⟩
  · intro hq
    have hg := classify_eq_greeting_iff.mp hq
    simp [answer_question, generate_response_without_context, hg]
  · intro hq
    obtain ⟨hg, hf⟩ := classify_eq_farewell_iff.mp hq
    refine ⟨by simp [answer_question, hg, hf], ?_⟩
    exact list_getD_mem (Nat.mod_lt _ (by decide))
  · intro hq
    obtain ⟨hg, hf, hu⟩ := classify_eq_unclear_iff.mp hq
    refine ⟨by simp [answer_question, hg, hf, hu], ?_⟩
    exact list_getD_mem (Nat.mod_lt _ (by decide))

/-- C7 witness: concrete greeting ("hello"), farewell ("bye") and unclear
("idk") queries, each against a present index, short-circuit as stated. -/
theorem C7_witness :
    (answer_question (fun _ => "hi!") (fun idx _ _ => idx)
        (some [⟨"text", []⟩]) 1 2 "hello" 5 =
      (.ok ("hi!", []), [.llmCall (ungrounded_prompt "hello")])) ∧
    (answer_question (fun _ => "hi!") (fun idx _ _ => idx)
        (some [⟨"text", []⟩]) 1 2 "bye" 5 =
      (.ok (generate_farewell_message 1, []), []) ∧
      generate_farewell_message 1 ∈ farewell_messages) ∧
    (answer_question (fun _ => "hi!") (fun idx _ _ => idx)
        (some [⟨"text", []⟩]) 1 2 "idk" 5 =
      (.ok (generate_clarification_message 2, []), []) ∧
      generate_clarification_message 2 ∈ clarification_messages) :=
  ⟨(C7_social_intents_short_circuit (fun _ => "hi!") (fun idx _ _ => idx)
      (some [⟨"text", []⟩]) 1 2 "hello" 5).1 (by decide),
   (C7_social_intents_short_circuit (fun _ => "hi!") (fun idx _ _ => idx)
      (some [⟨"text", []⟩]) 1 2 "bye" 5).2.1 (by decide),
   (C7_social_intents_short_circuit (fun _ => "hi!") (fun idx _ _ => idx)
      (some [⟨"text", []⟩]) 1 2 "idk" 5).2.2 (by decide)⟩

/-- C5: the greeting check succeeds exactly when the trimmed lowercase query
equals a greeting phrase, or starts with one and the stripped remainder is
empty or at most two words; and each greeting phrase followed by three
additional words fails the check. -/
theorem C5_greeting_characterization :
    (∀ q : String,
      is_greeting q = true ↔
        ∃ g ∈ greetings,
          pyStrip (pyLower q) = g ∨
          (pyStartsWith (pyStrip (pyLower q)) g = true ∧
            (pyStrip (pyDrop (pyStrip (pyLower q)) (pyLen g)) = "" ∨
             (pySplit
               (pyStrip (pyDrop (pyStrip (pyLower q)) (pyLen g)))).length
                 ≤ 2))) ∧
    ∀ g ∈ greetings, is_greeting (g ++ " one two three") = false := by
  constructor
  · intro q
    unfold is_greeting
    simp only [Bool.or_eq_true, List.any_eq_true, Bool.and_eq_true,
      beq_iff_eq, decide_eq_true_eq, List.contains_eq_any_beq]
    constructor
    · rintro (⟨g, hgmem, hgeq⟩ | ⟨g, hgmem, hsw, hrem⟩)
      · exact ⟨g, hgmem, Or.inl hgeq⟩
      · exact ⟨g, hgmem, Or.inr ⟨hsw, hrem⟩⟩
    · rintro ⟨g, hgmem, heq | ⟨hsw, hrem⟩⟩
      · exact Or.inl ⟨g, hgmem, heq⟩
      · exact Or.inr ⟨g, hgmem, hsw, hrem⟩
  · decide

/-- C5 witness: "hi" followed by three words is not a greeting; "hello there
friend" (two trailing words) is. -/
theorem C5_witness :
    is_greeting ("hi" ++ " one two three") = false ∧
    is_greeting "hello there friend" = true :=
  ⟨C5_greeting_characterization.2 "hi" (by decide),
   (C5_greeting_characterization.1 "hello there friend").mpr
     ⟨"hello", by decide, Or.inr ⟨by decide, Or.inr (by decide)⟩⟩⟩

/-- C8 counterexample: with `max_history = 0`, appending
`max_history + 5 = 5` messages retains all five of them — Python's
`messages[-0:]` slice is the whole list — not the claimed zero most-recent
messages, so the store does not keep at most `max_history` messages. -/
theorem C8_counterexample :
    fiveMessages.length = 0 + 5 ∧
    fiveMessages.foldl (add_message 0) [] = fiveMessages ∧
    fiveMessages.foldl (add_message 0) [] ≠ fiveMessages.drop 5 := by decide

/-- C8 amended: for `max_history ≥ 1`, appending `max_history + 5` messages
to an empty conversation retains exactly the `max_history` most recent in
their original relative order (the list's 5-element prefix is discarded). -/
theorem C8_retention_amended (maxH : Nat) (h : 1 ≤ maxH)
    (ms : List ChatMessage) (hlen : ms.length = maxH + 5) :
    ms.foldl (add_message maxH) [] = ms.drop 5 ∧
    (ms.foldl (add_message maxH) []).length = maxH := by
  have h0 := foldl_add_message_lastN h ms []
  simp only [List.drop_nil, List.nil_append] at h0
  constructor
  · rw [h0]
    congr 1
    omega
  · rw [h0, List.length_drop]
    omega

/-- C8 witness: with `max_history = 1`, appending six concrete messages
retains exactly the last one. -/
theorem C8_witness :
    sixMessages.foldl (add_message 1) [] = sixMessages.drop 5 ∧
    (sixMessages.foldl (add_message 1) []).length = 1 :=
  C8_retention_amended 1 (by decide) sixMessages (by decide)

/-- C9: an ingestion call appends its batch to the accumulated chunk list —
never replacing earlier batches — and, the accumulated list being non-empty,
rebuilds the index from the full accumulated list, the new index replacing
the old one entirely; over a whole session the accumulated list is the
concatenation of every batch submitted so far. -/
theorem C9_cumulative_append_and_rebuild (st : SessionState)
    (files : List (List Chunk))
    (hne : st.all_chunks ++ files.flatten ≠ []) :
    (process_documents st files).all_chunks =
      st.all_chunks ++ files.flatten ∧
    (process_documents st files).vector_store =
      some ((st.all_chunks ++ files.flatten).map toLangchainDoc) ∧
    ∀ (batches : List (List (List Chunk))),
      (batches.foldl process_documents ⟨[], none⟩).all_chunks =
        (batches.map List.flatten).flatten := by
  refine ⟨process_documents_all_chunks st files,
          process_documents_vector_store st files hne, ?_⟩
  intro batches
  simpa using foldl_process_documents_all_chunks batches ⟨[], none⟩

/-- C9 witness: a session holding one chunk receives a one-chunk batch; the
chunks concatenate and the index is rebuilt over both. -/
theorem C9_witness :
    (process_documents (⟨[⟨"c1", []⟩], none⟩ : SessionState)
        [[⟨"c2", []⟩]]).all_chunks =
      ([⟨"c1", []⟩] : List Chunk) ++ ([[⟨"c2", []⟩]] : List (List Chunk)).flatten ∧
    (process_documents (⟨[⟨"c1", []⟩], none⟩ : SessionState)
        [[⟨"c2", []⟩]]).vector_store =
      some ((([⟨"c1", []⟩] : List Chunk) ++
        ([[⟨"c2", []⟩]] : List (List Chunk)).flatten).map toLangchainDoc) ∧
    ∀ (batches : List (List (List Chunk))),
      (batches.foldl process_documents (⟨[], none⟩ : SessionState)).all_chunks =
        (batches.map List.flatten).flatten :=
  C9_cumulative_append_and_rebuild (⟨[⟨"c1", []⟩], none⟩ : SessionState)
    [[⟨"c2", []⟩]] (by decide)

/-- C10: the single-word query "history" is not a greeting phrase and
contains no greeting as a separate word, yet the character-based prefix
test matches "hi" with one-word remainder "story", so the greeting check
accepts it and `answer_question` takes the greeting branch for every
oracle, random pick, and index state. -/
theorem C10_prefix_test_is_character_based :
    greetings.contains "history" = false ∧
    pySplit "history" = ["history"] ∧
    is_greeting "history" = true ∧
    ∀ (llm : String → String)
      (search : Index → String → Nat → List LCDocument)
      (vector_store : Option Index) (pickF pickC k : Nat),
      answer_question llm search vector_store pickF pickC "history" k =
        (.ok (llm (ungrounded_prompt "history"), []),
         [.llmCall (ungrounded_prompt "history")]) := by
  refine ⟨by decide, by decide, by decide, ?_⟩
  intro llm search vector_store pickF pickC k
  simp [answer_question, generate_response_without_context,
        show is_greeting "history" = true from by decide]
